import Mathlib

/-!
Verification of the Boot_Lang setup automation repository.

This file gives a shallow embedding of the parts of the repository that the
claims speak about:

* the `/progress` endpoint parser of `setup_server.py` (`SetupHandler.do_GET`),
* the command runner `AutomationService._run_command`,
* the progress-marker traces written by the automation steps of
  `automation_service.py`,
* the probe phase of `AutomationService.provision_azure_resources`,
* `AutomationService.setup_git_remote`,
* the working-directory discipline of `AutomationService.build_welcome_page`,
* the polling loop of `AutomationService.verify_deployment`.

Python string primitives (`str.strip`, `str.replace`, `str.startswith`,
`str.lower`) are embedded as executable Lean functions on `String`.
External effects (subprocess execution, HTTP requests) are embedded as
explicit behaviour parameters, so each function under scrutiny is a pure
function of the behaviours of the processes it spawns.
-/

/-- Python whitespace predicate used by `str.strip`
(space, tab, newline, carriage return, vertical tab, form feed). -/
def pyIsSpace (c : Char) : Bool :=
  c == ' ' || c == '\t' || c == '\n' || c == '\r' || c.toNat == 11 || c.toNat == 12

/-- Python `str.strip()`: drop whitespace from both ends. -/
def pyStrip (s : String) : String :=
  String.mk (((s.data.dropWhile pyIsSpace).reverse.dropWhile pyIsSpace).reverse)

/-- Python `s.startswith(pre)`. -/
def pyStartsWith (s pre : String) : Bool :=
  pre.data.isPrefixOf s.data

/-- Python `str.lower()` (ASCII case fold, which is all the sources use). -/
def pyLower (s : String) : String :=
  String.mk (s.data.map Char.toLower)

/-- Worker for Python `str.replace`: replace every non-overlapping occurrence
of `pat`, scanning left to right.  The `Nat` argument is structural fuel; a
fuel equal to the length of the scanned list is enough, because every step
consumes at least one character. -/
def pyReplaceAux (pat rep : List Char) : Nat → List Char → List Char
  | _, [] => []
  | 0, l => l
  | fuel + 1, c :: rest =>
    if !pat.isEmpty && pat.isPrefixOf (c :: rest) then
      rep ++ pyReplaceAux pat rep fuel (List.drop (pat.length - 1) rest)
    else
      c :: pyReplaceAux pat rep fuel rest

/-- Python `s.replace(pat, rep)` (all occurrences, as used by
`line.replace('PROGRESS:', '')` and friends in `setup_server.py`). -/
def pyReplace (s pat rep : String) : String :=
  String.mk (pyReplaceAux pat.data rep.data s.data.length s.data)

/-- One entry of the `progress` list built by the `/progress` endpoint:
a task name with status `"running"` or `"done"`. -/
structure TaskEntry where
  task : String
  status : String
deriving DecidableEq

/-- Classification of one stripped log line by the `if`/`elif` chain of
`SetupHandler.do_GET` (`setup_server.py` lines 43-58), together with the
payload extracted by the corresponding `replace` call. -/
inductive LineKind where
  | progressLine (task : String)
  | doneLine (task : String)
  | completeLine (url : String)
  | errorLine (msg : String)
  | otherLine
deriving DecidableEq

/-- Classify one raw log line exactly as the endpoint does: strip it, then
test the four marker prefixes in source order, extracting the payload with
`replace(marker, '')`. -/
def classifyLine (rawLine : String) : LineKind :=
  let line := pyStrip rawLine
  if pyStartsWith line "PROGRESS:" then
    LineKind.progressLine (pyReplace line "PROGRESS:" "")
  else if pyStartsWith line "DONE:" then
    LineKind.doneLine (pyReplace line "DONE:" "")
  else if pyStartsWith line "COMPLETE:" then
    LineKind.completeLine (pyReplace line "COMPLETE:" "")
  else if pyStartsWith line "ERROR:" then
    LineKind.errorLine (pyReplace line "ERROR:" "")
  else
    LineKind.otherLine

/-- The `DONE:` handler of the endpoint (`setup_server.py` lines 50-54):
walk the accumulated entries in order and set the status of the FIRST entry
whose task equals the extracted name to `"done"`, then stop (`break`).
Note it does not skip entries that are already `"done"`. -/
def markDone (t : String) : List TaskEntry → List TaskEntry
  | [] => []
  | e :: rest =>
    if e.task = t then TaskEntry.mk e.task "done" :: rest
    else e :: markDone t rest

/-- Parser state of the `/progress` endpoint: the `progress` list and the
`complete_url` / `error_message` accumulators. -/
structure ProgressState where
  progress : List TaskEntry
  completeUrl : String
  errorMessage : String
deriving DecidableEq

/-- Initial parser state (`progress = []`, `complete_url = ""`,
`error_message = ""`). -/
def initState : ProgressState :=
  ProgressState.mk [] "" ""

/-- Process one log line, mirroring the loop body of the endpoint:
`PROGRESS:` appends a `"running"` entry, `DONE:` updates the first matching
entry, `COMPLETE:` / `ERROR:` overwrite their accumulator, anything else is
ignored. -/
def processLine (st : ProgressState) (rawLine : String) : ProgressState :=
  match classifyLine rawLine with
  | LineKind.progressLine t =>
    { st with progress := st.progress ++ [TaskEntry.mk t "running"] }
  | LineKind.doneLine t =>
    { st with progress := markDone t st.progress }
  | LineKind.completeLine u =>
    { st with completeUrl := u }
  | LineKind.errorLine m =>
    { st with errorMessage := m }
  | LineKind.otherLine => st

/-- Parse a whole progress log (the list of lines returned by
`readlines()`). -/
def parseProgressLog (lines : List String) : ProgressState :=
  lines.foldl processLine initState

/-- The JSON payload of the `/progress` endpoint, restricted to the fields
computed from the log (`github_actions_url` comes from `user_config.json`,
not from the log, and is independent of it). -/
structure ProgressResponse where
  progress : List TaskEntry
  complete : Bool
  url : String
  error : String
deriving DecidableEq

/-- Build the endpoint response from the log lines: `complete` is Python
`bool(complete_url)`, i.e. `complete_url` is non-empty. -/
def progressResponse (lines : List String) : ProgressResponse :=
  let st := parseProgressLog lines
  ProgressResponse.mk st.progress (st.completeUrl != "") st.completeUrl st.errorMessage

/-- Status of the first entry with the given task name, if any
(the entry a `DONE:` line would touch). -/
def findTask (t : String) (es : List TaskEntry) : Option String :=
  (es.find? (fun e => e.task == t)).map TaskEntry.status

/-- Payload of the LAST line (in file order) whose classification `pick`
accepts; used to state that later `COMPLETE:` / `ERROR:` lines overwrite
earlier ones. -/
def lastPayload (pick : LineKind → Option String) : List String → Option String
  | [] => none
  | l :: rest =>
    match lastPayload pick rest with
    | some m => some m
    | none => pick (classifyLine l)

/-- Select the payload of an `ERROR:` line. -/
def errorPick : LineKind → Option String
  | LineKind.errorLine m => some m
  | _ => none

/-- Select the payload of a `COMPLETE:` line. -/
def completePick : LineKind → Option String
  | LineKind.completeLine u => some u
  | _ => none

/-- The exceptions the embedded fragments can raise: `CalledProcessError`
and `FileNotFoundError` from `subprocess`, `KeyError` from dictionary
lookup, and `RuntimeError` raised explicitly by the automation code. -/
inductive PyExc where
  | calledProcessError (returncode : Int)
  | fileNotFoundError
  | keyError (key : String)
  | runtimeError (msg : String)
deriving DecidableEq

/-- A `subprocess.CompletedProcess`, reduced to the fields the repository
reads: the exit code, and the captured stdout text when `capture_output`
was requested (`none` when output went to `DEVNULL`). -/
structure CompletedProcess where
  returncode : Int
  stdout : Option String
deriving DecidableEq

/-- Behaviour of one external process: either it cannot be started
(`FileNotFoundError`), or it runs to completion with an exit code and an
output text. -/
inductive ProcBehavior where
  | startFailure
  | completes (returncode : Int) (stdout : String)
deriving DecidableEq

/-- `subprocess.run(cmd, check=check, ...)`: raises `FileNotFoundError` if
the executable is missing, raises `CalledProcessError` when `check` is set
and the exit code is non-zero, and otherwise returns the completed process
(with captured text only when `capture_output` was requested). -/
def subprocessRun (behavior : ProcBehavior) (check captureOutput : Bool) :
    Except PyExc CompletedProcess :=
  match behavior with
  | ProcBehavior.startFailure => Except.error PyExc.fileNotFoundError
  | ProcBehavior.completes code out =>
    if check = true ∧ code ≠ 0 then
      Except.error (PyExc.calledProcessError code)
    else
      Except.ok (CompletedProcess.mk code (if captureOutput then some out else none))

/-- `AutomationService._run_command` (`automation_service.py` lines 49-68):
run the command; on `CalledProcessError` return `None` if `check` is unset
else re-raise; on `FileNotFoundError` likewise.  (With `check` unset,
`subprocess.run` never raises `CalledProcessError`, so that `None` branch
is unreachable, exactly as in the source.) -/
def runCommand (behavior : ProcBehavior) (check captureOutput : Bool) :
    Except PyExc (Option CompletedProcess) :=
  match subprocessRun behavior check captureOutput with
  | Except.ok r => Except.ok (some r)
  | Except.error (PyExc.calledProcessError c) =>
    if check then Except.error (PyExc.calledProcessError c) else Except.ok none
  | Except.error PyExc.fileNotFoundError =>
    if check then Except.error PyExc.fileNotFoundError else Except.ok none
  | Except.error e => Except.error e

/-- `True` exactly on `Except.ok`. -/
def exceptOk {ε α : Type} : Except ε α → Bool
  | Except.ok _ => true
  | Except.error _ => false

/-!
Progress-marker traces.  Each definition below lists, in order, the lines an
automation step appends to `setup_progress.log` through `_log_progress` on
its successful path.  (`_log` lines also land in the same file but always
begin with a `[timestamp]` bracket and so never match a marker prefix.)
-/

/-- The line `run_automation` writes when it resets the log
(`automation_service.py` lines 897-899); `readlines` keeps the newline. -/
def initialProgressLog : List String :=
  ["Starting automation...\n"]

/-- `install_cli_tools`, success path (lines 195-225). -/
def installCliToolsLines : List String :=
  ["GitHub CLI verified", "Azure CLI verified"]

/-- `provision_azure_resources` markers, success path (lines 348-458). -/
def provisionAzureResourcesLines : List String :=
  ["PROGRESS:Provisioning Azure resources", "DONE:Provisioning Azure resources"]

/-- `create_github_workflows` markers (lines 460-513).  Note the opening
marker says `workflow` and the closing marker says `workflows`. -/
def createGithubWorkflowsLines : List String :=
  ["PROGRESS:Creating GitHub workflow", "DONE:Creating GitHub workflows"]

/-- `set_azure_publish_profiles` markers (lines 515-524). -/
def setAzurePublishProfilesLines : List String :=
  ["PROGRESS:Setting Azure credentials", "DONE:Setting Azure credentials"]

/-- `create_coming_soon_pages` markers (lines 526-572). -/
def createComingSoonPagesLines : List String :=
  ["PROGRESS:Creating coming soon page", "DONE:Creating coming soon page"]

/-- `create_virtual_environment` markers (lines 590-600). -/
def createVirtualEnvironmentLines : List String :=
  ["PROGRESS:Creating virtual environment", "DONE:Creating virtual environment"]

/-- `install_dependencies` markers (lines 602-622). -/
def installDependenciesLines : List String :=
  ["PROGRESS:Installing dependencies", "DONE:Installing dependencies"]

/-- `initialize_database` markers (lines 624-637). -/
def initializeDatabaseLines : List String :=
  ["PROGRESS:Initializing database", "DONE:Initializing database"]

/-- `build_welcome_page` markers, success path (lines 639-677). -/
def buildWelcomePageLines : List String :=
  ["PROGRESS:Building welcome page", "DONE:Building welcome page"]

/-- `secure_config_file` markers (lines 701-716). -/
def secureConfigFileLines : List String :=
  ["PROGRESS:Securing configuration file", "DONE:Securing configuration file"]

/-- `set_api_key_secrets` markers, success path (lines 751-788). -/
def setApiKeySecretsLines : List String :=
  ["PROGRESS:Setting API key secrets", "DONE:Setting API key secrets"]

/-- `commit_and_push` markers (lines 826-838). -/
def commitAndPushLines : List String :=
  ["PROGRESS:Pushing to GitHub", "DONE:Pushing to GitHub"]

/-- `create_dev_environment` markers (lines 840-844). -/
def createDevEnvironmentLines : List String :=
  ["PROGRESS:Skipping dev environment", "DONE:Skipping dev environment"]

/-- `verify_deployment` markers when the poll succeeds (lines 846-873). -/
def verifyDeploymentSuccessLines (url : String) : List String :=
  ["PROGRESS:Verifying deployment", "DONE:Deploying to Azure via GitHub Actions",
   "DONE:Verifying deployment", "COMPLETE:" ++ url]

/-- The `_log_progress` lines of one fully successful `run_automation`
call, concatenated in the order the steps run (lines 894-997);
`setup_git_remote` and the branch check emit no markers. -/
def automationMarkerTrace (url : String) : List String :=
  initialProgressLog ++ installCliToolsLines ++ provisionAzureResourcesLines ++
  createGithubWorkflowsLines ++ setAzurePublishProfilesLines ++
  createComingSoonPagesLines ++ createVirtualEnvironmentLines ++
  installDependenciesLines ++ initializeDatabaseLines ++ buildWelcomePageLines ++
  secureConfigFileLines ++ setApiKeySecretsLines ++ commitAndPushLines ++
  createDevEnvironmentLines ++ verifyDeploymentSuccessLines url

/-- The existence test of `provision_azure_resources`
(`automation_service.py` line 372): the abort branch runs exactly when the
probe returned a result whose stripped, lowercased stdout is `'true'`.
The probe runs with `capture_output=True`, so its stdout is present. -/
def probeSaysGroupExists (probe : Option CompletedProcess) : Bool :=
  match probe with
  | none => false
  | some r => pyLower (pyStrip (r.stdout.getD "")) == "true"

/-- The probe explicitly reported the group absent: it returned a result
and its stripped, lowercased stdout is `'false'` (what `az group exists`
prints for an absent group). -/
def probeSaysGroupAbsent (probe : Option CompletedProcess) : Bool :=
  match probe with
  | none => false
  | some r => pyLower (pyStrip (r.stdout.getD "")) == "false"

/-- Outcome of the probe phase of `provision_azure_resources`: either the
run aborts (with the `ERROR:` progress line written and the message of the
raised `RuntimeError`), or it proceeds to issue the listed commands. -/
inductive ProvisionOutcome where
  | aborted (progressLine : String) (raisedMessage : String)
  | creating (commands : List (List String))
deriving DecidableEq

/-- The commands `provision_azure_resources` issues after the probe passes
(`automation_service.py` lines 378-446), in order: group create, plan
create, webapp create, static web app create, static web app show, and the
appsettings update. -/
def provisionCreationCommands (azCmd resourceGroup appServiceName region projectName openaiKey : String) :
    List (List String) :=
  [[azCmd, "group", "create", "--name", resourceGroup, "--location", region,
    "--output", "none"],
   [azCmd, "appservice", "plan", "create", "--name", appServiceName ++ "-plan",
    "--resource-group", resourceGroup, "--sku", "B1", "--is-linux", "--output", "none"],
   [azCmd, "webapp", "create", "--name", appServiceName, "--resource-group",
    resourceGroup, "--plan", appServiceName ++ "-plan", "--runtime", "PYTHON:3.11",
    "--output", "none"],
   [azCmd, "staticwebapp", "create", "--name", appServiceName ++ "-frontend",
    "--resource-group", resourceGroup, "--location", region, "--output", "none"],
   [azCmd, "staticwebapp", "show", "--name", appServiceName ++ "-frontend",
    "--resource-group", resourceGroup, "--query", "defaultHostname", "--output", "tsv"],
   [azCmd, "webapp", "config", "appsettings", "set", "--name", appServiceName,
    "--resource-group", resourceGroup, "--settings", "ENVIRONMENT=production",
    "PROJECT_NAME=" ++ projectName, "OPENAI_API_KEY=" ++ openaiKey,
    "--output", "none"]]

/-- The probe phase of `provision_azure_resources` (lines 366-385) as a
function of the probe result: if the probe says the group exists, log
`ERROR:Resource group already exists` and raise
`RuntimeError(f"Resource group '{resource_group}' already exists")`;
otherwise fall through to the creation commands. -/
def provisionAzureResources (azCmd resourceGroup appServiceName region projectName openaiKey : String)
    (probe : Option CompletedProcess) : ProvisionOutcome :=
  if probeSaysGroupExists probe then
    ProvisionOutcome.aborted "ERROR:Resource group already exists"
      ("Resource group \x27" ++ resourceGroup ++ "\x27 already exists")
  else
    ProvisionOutcome.creating
      (provisionCreationCommands azCmd resourceGroup appServiceName region projectName openaiKey)

/-- The `git_deployment` section of `user_config.json`, reduced to the one
key the embedded functions read. -/
structure GitDeploymentConfig where
  githubRepoUrl : Option String
deriving DecidableEq

/-- `user_config.json`, reduced to the `git_deployment` section (the only
part the embedded functions read; the other sections are irrelevant to the
claims). -/
structure UserConfig where
  gitDeployment : Option GitDeploymentConfig
deriving DecidableEq

/-- Python `d[key]`: the value when present, `KeyError(key)` otherwise. -/
def pyDictGet {α : Type} (entry : Option α) (key : String) : Except PyExc α :=
  match entry with
  | some v => Except.ok v
  | none => Except.error (PyExc.keyError key)

/-- The repository raises its deliberate, descriptive failures as
`RuntimeError` with a crafted message (e.g. `provision_azure_resources`
line 376); any other exception kind is a generic exception escaping from
library code. -/
def isExplicitFailure : PyExc → Bool
  | PyExc.runtimeError _ => true
  | _ => false

/-- `AutomationService.setup_git_remote` (lines 574-588): read
`config['git_deployment']['github_repo_url']` (each lookup may raise
`KeyError`), run `git remote add origin <url>` with `check=False`, and if
that returned a result with non-zero exit code, run
`git remote set-url origin <url>`.  Returns the issued git commands. -/
def setupGitRemote (cfg : UserConfig) (addBehavior : ProcBehavior) :
    Except PyExc (List (List String)) :=
  match pyDictGet cfg.gitDeployment "git_deployment" with
  | Except.error e => Except.error e
  | Except.ok gd =>
    match pyDictGet gd.githubRepoUrl "github_repo_url" with
    | Except.error e => Except.error e
    | Except.ok url =>
      match runCommand addBehavior false false with
      | Except.error e => Except.error e
      | Except.ok (some r) =>
        if r.returncode ≠ 0 then
          Except.ok [["git", "remote", "add", "origin", url],
                     ["git", "remote", "set-url", "origin", url]]
        else
          Except.ok [["git", "remote", "add", "origin", url]]
      | Except.ok none =>
        Except.ok [["git", "remote", "add", "origin", url]]

/-- `os.chdir(d)` into a subdirectory, with the working directory modelled
as the stack of directory names below the start directory. -/
def chdirInto (cwd : List String) (d : String) : List String :=
  cwd ++ [d]

/-- `os.chdir('..')`: pop one directory. -/
def chdirUp (cwd : List String) : List String :=
  cwd.dropLast

/-- The working-directory skeleton of `AutomationService.build_welcome_page`
(lines 639-677): `os.chdir('frontend')`, `npm install`, `npm run build`
(both through `_run_command` with the default `check=True`, so a failure
raises and propagates), then `os.chdir('..')`.  The file writes before the
`chdir` do not touch the working directory and are omitted.  Returns the
raised exception or unit, paired with the final working directory. -/
def buildWelcomePage (cwd : List String) (npmInstall npmBuild : ProcBehavior) :
    Except PyExc Unit × List String :=
  let inFrontend := chdirInto cwd "frontend"
  match runCommand npmInstall true false with
  | Except.error e => (Except.error e, inFrontend)
  | Except.ok _ =>
    match runCommand npmBuild true false with
    | Except.error e => (Except.error e, inFrontend)
    | Except.ok _ => (Except.ok (), chdirUp inFrontend)

/-- Result of the `verify_deployment` polling loop: how many HTTP polls
were issued, whether a 200 was seen, the `_log_progress` lines written by
the loop and its aftermath, and the list of sleep durations performed. -/
structure VerifyOutcome where
  attempts : Nat
  verified : Bool
  progressLines : List String
  sleeps : List Nat
deriving DecidableEq

/-- The body of `for i in range(1, 37)` in `verify_deployment`
(lines 862-878): poll attempt `i`; a 200 response logs the `DONE:` and
`COMPLETE:` lines and breaks without sleeping; anything else (another
status, or an exception) sleeps 5 seconds and continues.  `resp i` is the
HTTP status of attempt `i`, `none` standing for a raised exception. -/
def verifyAttempts (url : String) (resp : Nat → Option Nat) : Nat → Nat → VerifyOutcome
  | _, 0 => VerifyOutcome.mk 0 false [] []
  | i, fuel + 1 =>
    if resp i = some 200 then
      VerifyOutcome.mk 1 true
        ["DONE:Verifying deployment", "COMPLETE:" ++ url] []
    else
      let rest := verifyAttempts url resp (i + 1) fuel
      VerifyOutcome.mk (rest.attempts + 1) rest.verified rest.progressLines
        (5 :: rest.sleeps)

/-- The polling loop of `verify_deployment` plus its timeout epilogue
(lines 861-886): at most 36 attempts starting at attempt 1; if none
verified, append the closing `DONE:` and the timeout `ERROR:` lines. -/
def verifyDeploymentLoop (url : String) (resp : Nat → Option Nat) : VerifyOutcome :=
  let loopResult := verifyAttempts url resp 1 36
  if loopResult.verified then
    loopResult
  else
    { loopResult with
        progressLines := loopResult.progressLines ++
          ["DONE:Verifying deployment",
           "ERROR:Deployment not verified - check GitHub Actions"] }

/-!
Theorems.  Each claim of the specification is settled below; helper lemmas
come first within each group.
-/

/-- Claim C8: polling the status endpoint immediately after `run_automation`
resets the progress log returns an empty progress list, `complete = false`,
and an empty error string. -/
theorem c8_reset_response :
    progressResponse initialProgressLog = ProgressResponse.mk [] false "" "" := by
  rfl

/-- Claim C4, counterexample: with `check = false`, a process that runs and
exits with code 1 makes `_run_command` return the structured result, not the
absence sentinel `None` — refuting the claim that both failure cases return
the sentinel. -/
theorem c4_run_command_counterexample :
    runCommand (ProcBehavior.completes 1 "boom") false true =
      Except.ok (some (CompletedProcess.mk 1 (some "boom"))) ∧
    (Except.ok (some (CompletedProcess.mk 1 (some "boom"))) :
        Except PyExc (Option CompletedProcess)) ≠ Except.ok none := by
  exact ⟨rfl, by simp⟩

/-- Claim C4, amended: with `check = false`, `_run_command` returns the
absence sentinel exactly when the process could not be started; a process
that runs returns the structured result carrying its exit code and, when
requested, the captured output text — even when the exit code is non-zero. -/
theorem c4_run_command_sentinel (behavior : ProcBehavior) (captureOutput : Bool) :
    (runCommand behavior false captureOutput = Except.ok none ↔
      behavior = ProcBehavior.startFailure) ∧
    (∀ c out, behavior = ProcBehavior.completes c out →
      runCommand behavior false captureOutput =
        Except.ok (some (CompletedProcess.mk c (if captureOutput then some out else none)))) := by
  cases behavior with
  | startFailure => simp [runCommand, subprocessRun]
  | completes c out => simp [runCommand, subprocessRun]

/-- Claim C4, witness for the amended theorem at a concrete non-zero exit. -/
theorem c4_run_command_witness :
    runCommand (ProcBehavior.completes 7 "out") false true =
      Except.ok (some (CompletedProcess.mk 7 (some "out"))) := by
  exact (c4_run_command_sentinel (ProcBehavior.completes 7 "out") true).2 7 "out" rfl

/-- Claim C3, counterexample: when the existence probe fails outright
(returns no result), `provision_azure_resources` still issues the creation
commands, although the probe did not report the group absent — refuting
"creation commands are only issued when the probe reports the group
absent". -/
theorem c3_precondition_counterexample :
    provisionAzureResources "az" "rg1" "app1" "eastus2" "proj" "key" none =
      ProvisionOutcome.creating
        (provisionCreationCommands "az" "rg1" "app1" "eastus2" "proj" "key") ∧
    probeSaysGroupAbsent none = false := by
  exact ⟨rfl, rfl⟩

/-- Claim C3, amended: if the probe reports the group as existing
(stripped, lowercased stdout `'true'`), the run aborts with the `ERROR:`
progress line and a raised "already exists" failure and issues no creation
command; creation commands are issued exactly when the probe does not
report the group as existing — which includes probe failures, not only an
explicit `'false'` report. -/
theorem c3_precondition_abort (azCmd rg app region proj key : String)
    (probe : Option CompletedProcess) :
    (probeSaysGroupExists probe = true →
      provisionAzureResources azCmd rg app region proj key probe =
        ProvisionOutcome.aborted "ERROR:Resource group already exists"
          ("Resource group \x27" ++ rg ++ "\x27 already exists")) ∧
    ((∃ cmds, provisionAzureResources azCmd rg app region proj key probe =
        ProvisionOutcome.creating cmds) ↔ probeSaysGroupExists probe = false) := by
  constructor
  · intro h
    simp [provisionAzureResources, h]
  · constructor
    · intro h
      rcases h with ⟨cmds, hcmds⟩
      by_cases hex : probeSaysGroupExists probe = true
      · simp [provisionAzureResources, hex] at hcmds
      · simpa using hex
    · intro h
      refine ⟨provisionCreationCommands azCmd rg app region proj key, ?_⟩
      simp [provisionAzureResources, h]

/-- Claim C3, witness: a probe answering `' True \n'` aborts with the
"already exists" failure; a failed probe proceeds to creation. -/
theorem c3_precondition_witness :
    provisionAzureResources "az" "rg1" "app1" "eastus2" "proj" "key"
        (some (CompletedProcess.mk 0 (some " True \n"))) =
      ProvisionOutcome.aborted "ERROR:Resource group already exists"
        ("Resource group \x27" ++ "rg1" ++ "\x27 already exists") ∧
    (∃ cmds, provisionAzureResources "az" "rg1" "app1" "eastus2" "proj" "key" none =
      ProvisionOutcome.creating cmds) := by
  constructor
  · exact (c3_precondition_abort "az" "rg1" "app1" "eastus2" "proj" "key"
      (some (CompletedProcess.mk 0 (some " True \n")))).1 (by decide)
  · exact (c3_precondition_abort "az" "rg1" "app1" "eastus2" "proj" "key" none).2.mpr
      (by decide)

/-- Claim C7, counterexample: with `git_deployment` absent from the config,
`setup_git_remote` raises a bare `KeyError` from the dictionary lookup —
a generic exception, not one of the repository's explicit descriptive
`RuntimeError` failures — refuting "a descriptive error naming the missing
value, not a generic exception". -/
theorem c7_missing_url_counterexample :
    setupGitRemote (UserConfig.mk none) (ProcBehavior.completes 0 "") =
      Except.error (PyExc.keyError "git_deployment") ∧
    isExplicitFailure (PyExc.keyError "git_deployment") = false := by
  exact ⟨rfl, rfl⟩

/-- Claim C7, amended: when `git_deployment.github_repo_url` is absent the
orchestrator does fail at the git-remote step, but with an uncaught
`KeyError` naming only the missing dictionary key (`'git_deployment'` when
the whole section is absent, `'github_repo_url'` when only the url is),
which `run_automation`'s blanket handler reports generically. -/
theorem c7_missing_url_error (cfg : UserConfig) (addBehavior : ProcBehavior) :
    (cfg.gitDeployment = none →
      setupGitRemote cfg addBehavior = Except.error (PyExc.keyError "git_deployment")) ∧
    (∀ gd, cfg.gitDeployment = some gd → gd.githubRepoUrl = none →
      setupGitRemote cfg addBehavior = Except.error (PyExc.keyError "github_repo_url")) := by
  constructor
  · intro h
    simp [setupGitRemote, pyDictGet, h]
  · intro gd hgd hurl
    simp [setupGitRemote, pyDictGet, hgd, hurl]

/-- Claim C7, witness for the amended theorem on both shapes of missing
configuration. -/
theorem c7_missing_url_witness :
    setupGitRemote (UserConfig.mk none) (ProcBehavior.completes 0 "") =
      Except.error (PyExc.keyError "git_deployment") ∧
    setupGitRemote (UserConfig.mk (some (GitDeploymentConfig.mk none)))
        (ProcBehavior.completes 0 "") =
      Except.error (PyExc.keyError "github_repo_url") := by
  constructor
  · exact (c7_missing_url_error (UserConfig.mk none) (ProcBehavior.completes 0 "")).1 rfl
  · exact (c7_missing_url_error (UserConfig.mk (some (GitDeploymentConfig.mk none)))
      (ProcBehavior.completes 0 "")).2 (GitDeploymentConfig.mk none) rfl rfl

/-- Claim C9: when `git remote add origin` runs and exits non-zero (as when
`origin` already exists), `setup_git_remote` does not abort: it issues
`git remote set-url origin` with the same URL; when the add exits zero only
the add is issued.  Either way the step completes without raising. -/
theorem c9_remote_fallback (cfg : UserConfig) (gd : GitDeploymentConfig)
    (url : String) (c : Int) (out : String)
    (hgd : cfg.gitDeployment = some gd) (hurl : gd.githubRepoUrl = some url) :
    (c ≠ 0 → setupGitRemote cfg (ProcBehavior.completes c out) =
      Except.ok [["git", "remote", "add", "origin", url],
                 ["git", "remote", "set-url", "origin", url]]) ∧
    (c = 0 → setupGitRemote cfg (ProcBehavior.completes c out) =
      Except.ok [["git", "remote", "add", "origin", url]]) := by
  constructor
  · intro hc
    simp [setupGitRemote, pyDictGet, hgd, hurl, runCommand, subprocessRun, hc]
  · intro hc
    simp [setupGitRemote, pyDictGet, hgd, hurl, runCommand, subprocessRun, hc]

/-- Claim C9, witness: the fallback fires at exit code 128 and is skipped
at exit code 0. -/
theorem c9_remote_fallback_witness :
    setupGitRemote
        (UserConfig.mk (some (GitDeploymentConfig.mk (some "https://github.example/r.git"))))
        (ProcBehavior.completes 128 "") =
      Except.ok [["git", "remote", "add", "origin", "https://github.example/r.git"],
                 ["git", "remote", "set-url", "origin", "https://github.example/r.git"]] ∧
    setupGitRemote
        (UserConfig.mk (some (GitDeploymentConfig.mk (some "https://github.example/r.git"))))
        (ProcBehavior.completes 0 "") =
      Except.ok [["git", "remote", "add", "origin", "https://github.example/r.git"]] := by
  constructor
  · exact (c9_remote_fallback _ _ "https://github.example/r.git" 128 "" rfl rfl).1 (by decide)
  · exact (c9_remote_fallback _ _ "https://github.example/r.git" 0 "" rfl rfl).2 rfl

/-- Claim C6, counterexample: when `npm install` fails (here: cannot be
started), `build_welcome_page` propagates the exception while the working
directory is still `frontend` — the original directory is not restored,
refuting "restores the original working directory regardless of whether
those commands succeed or fail". -/
theorem c6_working_directory_counterexample :
    buildWelcomePage [] ProcBehavior.startFailure (ProcBehavior.completes 0 "") =
      (Except.error PyExc.fileNotFoundError, ["frontend"]) ∧
    (["frontend"] : List String) ≠ [] := by
  exact ⟨rfl, by decide⟩

/-- Claim C6, amended: `build_welcome_page` restores the original working
directory only on the success path; when either npm command raises, the
exception propagates with the working directory left inside `frontend`. -/
theorem c6_working_directory (cwd : List String) (npmInstall npmBuild : ProcBehavior) :
    ((buildWelcomePage cwd npmInstall npmBuild).1 = Except.ok () →
      (buildWelcomePage cwd npmInstall npmBuild).2 = cwd) ∧
    (∀ e, (buildWelcomePage cwd npmInstall npmBuild).1 = Except.error e →
      (buildWelcomePage cwd npmInstall npmBuild).2 = cwd ++ ["frontend"]) := by
  cases npmInstall with
  | startFailure =>
    constructor
    · intro h
      simp [buildWelcomePage, runCommand, subprocessRun] at h
    · intro e _
      simp [buildWelcomePage, runCommand, subprocessRun, chdirInto]
  | completes ci outi =>
    by_cases hci : ci = 0
    · cases npmBuild with
      | startFailure =>
        constructor
        · intro h
          simp [buildWelcomePage, runCommand, subprocessRun, hci] at h
        · intro e _
          simp [buildWelcomePage, runCommand, subprocessRun, hci, chdirInto]
      | completes cb outb =>
        by_cases hcb : cb = 0
        · constructor
          · intro _
            simp [buildWelcomePage, runCommand, subprocessRun, hci, hcb, chdirInto, chdirUp]
          · intro e he
            simp [buildWelcomePage, runCommand, subprocessRun, hci, hcb] at he
        · constructor
          · intro h
            simp [buildWelcomePage, runCommand, subprocessRun, hci, hcb] at h
          · intro e _
            simp [buildWelcomePage, runCommand, subprocessRun, hci, hcb, chdirInto]
    · constructor
      · intro h
        simp [buildWelcomePage, runCommand, subprocessRun, hci] at h
      · intro e _
        simp [buildWelcomePage, runCommand, subprocessRun, hci, chdirInto]

/-- Claim C6, witness: restoration on the success path, and the stuck
directory when the install raises, both via the amended theorem. -/
theorem c6_working_directory_witness :
    (buildWelcomePage ["home"] (ProcBehavior.completes 0 "") (ProcBehavior.completes 0 "")).2 =
      ["home"] ∧
    (buildWelcomePage ["home"] ProcBehavior.startFailure (ProcBehavior.completes 0 "")).2 =
      ["home"] ++ ["frontend"] := by
  constructor
  · exact (c6_working_directory ["home"] (ProcBehavior.completes 0 "")
      (ProcBehavior.completes 0 "")).1 rfl
  · exact (c6_working_directory ["home"] ProcBehavior.startFailure
      (ProcBehavior.completes 0 "")).2 PyExc.fileNotFoundError rfl

/-- The error accumulator after folding the parser equals the payload of
the last `ERROR:` line, with the incoming value as default: each later
`ERROR:` line overwrites the earlier value. -/
theorem foldl_errorMessage (L : List String) : ∀ st : ProgressState,
    (List.foldl processLine st L).errorMessage =
      (lastPayload errorPick L).getD st.errorMessage := by
  induction L with
  | nil => intro st; rfl
  | cons l L ih =>
    intro st
    rw [List.foldl_cons, ih]
    cases hrest : lastPayload errorPick L with
    | some m => simp [lastPayload, hrest]
    | none =>
      cases hcl : classifyLine l with
      | progressLine t => simp [lastPayload, hrest, processLine, hcl, errorPick]
      | doneLine t => simp [lastPayload, hrest, processLine, hcl, errorPick]
      | completeLine u => simp [lastPayload, hrest, processLine, hcl, errorPick]
      | errorLine m => simp [lastPayload, hrest, processLine, hcl, errorPick]
      | otherLine => simp [lastPayload, hrest, processLine, hcl, errorPick]

/-- The completion-url accumulator after folding the parser equals the
payload of the last `COMPLETE:` line, with the incoming value as default. -/
theorem foldl_completeUrl (L : List String) : ∀ st : ProgressState,
    (List.foldl processLine st L).completeUrl =
      (lastPayload completePick L).getD st.completeUrl := by
  induction L with
  | nil => intro st; rfl
  | cons l L ih =>
    intro st
    rw [List.foldl_cons, ih]
    cases hrest : lastPayload completePick L with
    | some m => simp [lastPayload, hrest]
    | none =>
      cases hcl : classifyLine l with
      | progressLine t => simp [lastPayload, hrest, processLine, hcl, completePick]
      | doneLine t => simp [lastPayload, hrest, processLine, hcl, completePick]
      | completeLine u => simp [lastPayload, hrest, processLine, hcl, completePick]
      | errorLine m => simp [lastPayload, hrest, processLine, hcl, completePick]
      | otherLine => simp [lastPayload, hrest, processLine, hcl, completePick]

/-- Claim C10: with several `ERROR:` or `COMPLETE:` lines in the log, the
endpoint reports only the last line of each kind, and `complete = true`
exactly when the last `COMPLETE:` line carries a non-empty payload. -/
theorem c10_last_marker_wins (lines : List String) :
    (progressResponse lines).error = (lastPayload errorPick lines).getD "" ∧
    (progressResponse lines).url = (lastPayload completePick lines).getD "" ∧
    ((progressResponse lines).complete = true ↔
      (lastPayload completePick lines).getD "" ≠ "") := by
  have he := foldl_errorMessage lines initState
  have hc := foldl_completeUrl lines initState
  refine ⟨?_, ?_, ?_⟩
  · simpa [progressResponse, parseProgressLog, initState] using he
  · simpa [progressResponse, parseProgressLog, initState] using hc
  · simp only [progressResponse, parseProgressLog]
    rw [hc]
    simp [initState, bne_iff_ne]

/-- `markDone` never changes the task names of the entries, only a status. -/
theorem markDone_map_task (t : String) : ∀ es : List TaskEntry,
    (markDone t es).map TaskEntry.task = es.map TaskEntry.task := by
  intro es
  induction es with
  | nil => rfl
  | cons e rest ih =>
    by_cases h : e.task = t
    · simp [markDone, h]
    · simp [markDone, h, ih]

/-- A `DONE:` for task `t` marks the first entry named `t` done: with no
entry named `t` before it, that entry flips to `"done"` and everything else
is untouched. -/
theorem markDone_hit (t s : String) : ∀ (A B : List TaskEntry),
    (∀ e ∈ A, e.task ≠ t) →
    markDone t (A ++ TaskEntry.mk t s :: B) = A ++ TaskEntry.mk t "done" :: B := by
  intro A
  induction A with
  | nil => intro B _; simp [markDone]
  | cons e A ih =>
    intro B hA
    have he : e.task ≠ t := hA e (List.mem_cons_self e A)
    simp [markDone, he, ih B (fun x hx => hA x (List.mem_cons_of_mem e hx))]

/-- A `DONE:` for a different task `u` preserves the first entry named `t`
and keeps everything before it free of task `t`. -/
theorem markDone_shape_ne (u t : String) (hut : u ≠ t) :
    ∀ (A : List TaskEntry) (s : String) (B : List TaskEntry),
    (∀ e ∈ A, e.task ≠ t) →
    ∃ A2 B2, markDone u (A ++ TaskEntry.mk t s :: B) = A2 ++ TaskEntry.mk t s :: B2 ∧
      (∀ e ∈ A2, e.task ≠ t) := by
  intro A
  induction A with
  | nil =>
    intro s B _
    refine ⟨[], markDone u B, ?_, ?_⟩
    · simp [markDone, Ne.symm hut]
    · intro e he
      simp at he
  | cons e A ih =>
    intro s B hA
    have he : e.task ≠ t := hA e (List.mem_cons_self e A)
    by_cases heu : e.task = u
    · refine ⟨TaskEntry.mk e.task "done" :: A, B, ?_, ?_⟩
      · simp [markDone, heu]
      · intro x hx
        rcases List.mem_cons.mp hx with h1 | h2
        · rw [h1]; exact he
        · exact hA x (List.mem_cons_of_mem e h2)
    · rcases ih s B (fun x hx => hA x (List.mem_cons_of_mem e hx)) with ⟨A2, B2, heq, hA2⟩
      refine ⟨e :: A2, B2, ?_, ?_⟩
      · simp [markDone, heu, heq]
      · intro x hx
        rcases List.mem_cons.mp hx with h1 | h2
        · rw [h1]; exact he
        · exact hA2 x h2

/-- `findTask` returns the status of the first entry named `t`. -/
theorem findTask_shape (t s : String) : ∀ (A B : List TaskEntry),
    (∀ e ∈ A, e.task ≠ t) →
    findTask t (A ++ TaskEntry.mk t s :: B) = some s := by
  intro A
  induction A with
  | nil =>
    intro B _
    show findTask t (TaskEntry.mk t s :: B) = some s
    unfold findTask
    rw [List.find?_cons_of_pos]
    · rfl
    · simp
  | cons e A ih =>
    intro B hA
    have he : e.task ≠ t := hA e (List.mem_cons_self e A)
    show findTask t (e :: (A ++ TaskEntry.mk t s :: B)) = some s
    unfold findTask
    rw [List.find?_cons_of_neg]
    · exact ih B (fun x hx => hA x (List.mem_cons_of_mem e hx))
    · simp [he]

/-- Folding lines with no `PROGRESS:` extracting `t` over a state whose
first (and only) entry named `t` has status `s` yields status `"done"` when
some line is a `DONE:` extracting `t`, and `s` otherwise. -/
theorem foldl_findTask (t : String) : ∀ (L : List String),
    (∀ l ∈ L, classifyLine l ≠ LineKind.progressLine t) →
    ∀ (st : ProgressState) (A : List TaskEntry) (s : String) (B : List TaskEntry),
      st.progress = A ++ TaskEntry.mk t s :: B →
      (∀ e ∈ A, e.task ≠ t) →
      findTask t (List.foldl processLine st L).progress =
        some (if L.any (fun d => decide (classifyLine d = LineKind.doneLine t))
              then "done" else s) := by
  intro L
  induction L with
  | nil =>
    intro _ st A s B hst hA
    rw [List.foldl_nil, hst]
    simpa using findTask_shape t s A B hA
  | cons l L ih =>
    intro hL st A s B hst hA
    have hLtail : ∀ x ∈ L, classifyLine x ≠ LineKind.progressLine t :=
      fun x hx => hL x (List.mem_cons_of_mem l hx)
    rw [List.foldl_cons]
    cases hcl : classifyLine l with
    | progressLine u =>
      have hut : u ≠ t := by
        intro h
        exact hL l (List.mem_cons_self l L) (by rw [hcl, h])
      have hst2 : (processLine st l).progress =
          A ++ TaskEntry.mk t s :: (B ++ [TaskEntry.mk u "running"]) := by
        simp [processLine, hcl, hst]
      have hany : (l :: L).any (fun d => decide (classifyLine d = LineKind.doneLine t)) =
          L.any (fun d => decide (classifyLine d = LineKind.doneLine t)) := by
        simp [List.any_cons, hcl]
      rw [hany]
      exact ih hLtail _ A s _ hst2 hA
    | doneLine u =>
      by_cases hut : u = t
      · subst hut
        have hst2 : (processLine st l).progress = A ++ TaskEntry.mk u "done" :: B := by
          simp only [processLine, hcl]
          rw [hst, markDone_hit u s A B hA]
        have hany : (l :: L).any (fun d => decide (classifyLine d = LineKind.doneLine u)) =
            true := by
          simp [List.any_cons, hcl]
        rw [hany, ih hLtail _ A "done" B hst2 hA]
        simp
      · rcases markDone_shape_ne u t hut A s B hA with ⟨A2, B2, heq, hA2⟩
        have hst2 : (processLine st l).progress = A2 ++ TaskEntry.mk t s :: B2 := by
          simp only [processLine, hcl]
          rw [hst, heq]
        have hany : (l :: L).any (fun d => decide (classifyLine d = LineKind.doneLine t)) =
            L.any (fun d => decide (classifyLine d = LineKind.doneLine t)) := by
          simp [List.any_cons, hcl, hut]
        rw [hany]
        exact ih hLtail _ A2 s B2 hst2 hA2
    | completeLine u =>
      have hst2 : (processLine st l).progress = A ++ TaskEntry.mk t s :: B := by
        simp only [processLine, hcl]
        exact hst
      have hany : (l :: L).any (fun d => decide (classifyLine d = LineKind.doneLine t)) =
          L.any (fun d => decide (classifyLine d = LineKind.doneLine t)) := by
        simp [List.any_cons, hcl]
      rw [hany]
      exact ih hLtail _ A s B hst2 hA
    | errorLine m =>
      have hst2 : (processLine st l).progress = A ++ TaskEntry.mk t s :: B := by
        simp only [processLine, hcl]
        exact hst
      have hany : (l :: L).any (fun d => decide (classifyLine d = LineKind.doneLine t)) =
          L.any (fun d => decide (classifyLine d = LineKind.doneLine t)) := by
        simp [List.any_cons, hcl]
      rw [hany]
      exact ih hLtail _ A s B hst2 hA
    | otherLine =>
      have hst2 : (processLine st l).progress = A ++ TaskEntry.mk t s :: B := by
        simp only [processLine, hcl]
        exact hst
      have hany : (l :: L).any (fun d => decide (classifyLine d = LineKind.doneLine t)) =
          L.any (fun d => decide (classifyLine d = LineKind.doneLine t)) := by
        simp [List.any_cons, hcl]
      rw [hany]
      exact ih hLtail _ A s B hst2 hA

/-- Folding lines none of which is a `PROGRESS:` extracting `t` never
introduces an entry named `t`. -/
theorem noTaskT_foldl (t : String) : ∀ (L : List String),
    (∀ l ∈ L, classifyLine l ≠ LineKind.progressLine t) →
    ∀ st : ProgressState, (∀ e ∈ st.progress, e.task ≠ t) →
    ∀ e ∈ (List.foldl processLine st L).progress, e.task ≠ t := by
  intro L
  induction L with
  | nil => intro _ st hst; simpa using hst
  | cons l L ih =>
    intro hL st hst
    rw [List.foldl_cons]
    apply ih (fun x hx => hL x (List.mem_cons_of_mem l hx))
    cases hcl : classifyLine l with
    | progressLine u =>
      have hut : u ≠ t := fun h => hL l (List.mem_cons_self l L) (by rw [hcl, h])
      intro e he
      simp only [processLine, hcl] at he
      rcases List.mem_append.mp he with h1 | h2
      · exact hst e h1
      · have : e = TaskEntry.mk u "running" := by simpa using h2
        rw [this]
        exact hut
    | doneLine u =>
      intro e he
      simp only [processLine, hcl] at he
      have hmem : e.task ∈ (markDone u st.progress).map TaskEntry.task :=
        List.mem_map_of_mem TaskEntry.task he
      rw [markDone_map_task u st.progress] at hmem
      rcases List.mem_map.mp hmem with ⟨e0, he0, heq⟩
      rw [← heq]
      exact hst e0 he0
    | completeLine u =>
      intro e he
      simp only [processLine, hcl] at he
      exact hst e he
    | errorLine m =>
      intro e he
      simp only [processLine, hcl] at he
      exact hst e he
    | otherLine =>
      intro e he
      simp only [processLine, hcl] at he
      exact hst e he

/-- Claim C1, amended: a `DONE:t` line is matched to the EARLIEST entry
named `t` (regardless of its status), not to the most recent unfinished
one.  Consequently, for a task name extracted by exactly one `PROGRESS:`
line, the endpoint reports `done` exactly when some later line is a
`DONE:` extracting the same name, and `running` otherwise. -/
theorem c1_matching_corrected (L1 L2 : List String) (p t : String)
    (hp : classifyLine p = LineKind.progressLine t)
    (h1 : ∀ l ∈ L1, classifyLine l ≠ LineKind.progressLine t)
    (h2 : ∀ l ∈ L2, classifyLine l ≠ LineKind.progressLine t) :
    findTask t (parseProgressLog (L1 ++ p :: L2)).progress =
      some (if L2.any (fun d => decide (classifyLine d = LineKind.doneLine t))
            then "done" else "running") := by
  unfold parseProgressLog
  rw [List.foldl_append, List.foldl_cons]
  have hA : ∀ e ∈ (List.foldl processLine initState L1).progress, e.task ≠ t :=
    noTaskT_foldl t L1 h1 initState (by simp [initState])
  have hst2 : (processLine (List.foldl processLine initState L1) p).progress =
      (List.foldl processLine initState L1).progress ++ TaskEntry.mk t "running" :: [] := by
    simp [processLine, hp]
  exact foldl_findTask t L2 h2 _ _ "running" [] hst2 hA

/-- Claim C1, witness for the amended theorem on a concrete log. -/
theorem c1_matching_witness :
    findTask "Pushing to GitHub"
      (parseProgressLog (["Starting automation...\n"] ++
        "PROGRESS:Pushing to GitHub" :: ["DONE:Pushing to GitHub"])).progress =
      some "done" := by
  rw [c1_matching_corrected ["Starting automation...\n"] ["DONE:Pushing to GitHub"]
    "PROGRESS:Pushing to GitHub" "Pushing to GitHub" (by decide) (by decide) (by decide)]
  rfl

/-- Claim C1, counterexample: in the log `PROGRESS:a, PROGRESS:a, DONE:a`
both `PROGRESS:a` lines are followed later by a `DONE:a` line, yet the
endpoint leaves the second entry `running`: the `DONE:` is matched to the
earliest entry named `a`, not to the most recent unfinished one, so not
every entry is reported `done` as the claim requires. -/
theorem c1_matching_counterexample :
    (progressResponse ["PROGRESS:a", "PROGRESS:a", "DONE:a"]).progress =
      [TaskEntry.mk "a" "done", TaskEntry.mk "a" "running"] ∧
    ((progressResponse ["PROGRESS:a", "PROGRESS:a", "DONE:a"]).progress.all
      (fun e => e.status == "done")) = false := by
  exact ⟨rfl, rfl⟩

/-- Claim C2: the step `create_github_workflows` opens with the marker task
`Creating GitHub workflow` but closes with `Creating GitHub workflows`
(note the trailing `s`), and never writes a `DONE:` matching its own
`PROGRESS:` verbatim; on a fully successful automation run the reporting
view therefore leaves that task `running` forever, contradicting the
verbatim-matching invariant. -/
theorem c2_workflow_marker_mismatch :
    "PROGRESS:Creating GitHub workflow" ∈ createGithubWorkflowsLines ∧
    "DONE:Creating GitHub workflows" ∈ createGithubWorkflowsLines ∧
    (createGithubWorkflowsLines.all
      (fun l => l != "DONE:Creating GitHub workflow")) = true ∧
    TaskEntry.mk "Creating GitHub workflow" "running" ∈
      (progressResponse (automationMarkerTrace "https://app.example.net")).progress := by
  refine ⟨by decide, by decide, by decide, by decide⟩

/-- Every call of the polling loop makes at most `fuel` HTTP polls. -/
theorem verifyAttempts_le (url : String) (resp : Nat → Option Nat) :
    ∀ (fuel i : Nat), (verifyAttempts url resp i fuel).attempts ≤ fuel := by
  intro fuel
  induction fuel with
  | zero => intro i; simp [verifyAttempts]
  | succ n ih =>
    intro i
    by_cases h : resp i = some 200
    · simp [verifyAttempts, h]
    · have := ih (i + 1)
      simp [verifyAttempts, h]
      omega

/-- If no attempt in the window answers 200, the loop makes exactly `fuel`
polls, sleeps 5 seconds after each, and verifies nothing. -/
theorem verifyAttempts_all_fail (url : String) (resp : Nat → Option Nat) :
    ∀ (fuel i : Nat), (∀ k, k < fuel → resp (i + k) ≠ some 200) →
    verifyAttempts url resp i fuel =
      VerifyOutcome.mk fuel false [] (List.replicate fuel 5) := by
  intro fuel
  induction fuel with
  | zero => intro i _; simp [verifyAttempts, List.replicate]
  | succ n ih =>
    intro i h
    have h0 : resp i ≠ some 200 := by
      have := h 0 (Nat.succ_pos n)
      simpa using this
    have htail : ∀ k, k < n → resp (i + 1 + k) ≠ some 200 := by
      intro k hk
      have hh := h (k + 1) (by omega)
      have heq : i + (k + 1) = i + 1 + k := by omega
      rwa [heq] at hh
    simp [verifyAttempts, h0, ih (i + 1) htail, List.replicate_succ]

/-- If attempt `i + k` is the first to answer 200, the loop stops there:
`k + 1` polls, `k` sleeps, and the `DONE:`/`COMPLETE:` lines are logged. -/
theorem verifyAttempts_first_success (url : String) (resp : Nat → Option Nat) :
    ∀ (k fuel i : Nat), k < fuel → resp (i + k) = some 200 →
    (∀ j, j < k → resp (i + j) ≠ some 200) →
    verifyAttempts url resp i fuel =
      VerifyOutcome.mk (k + 1) true
        ["DONE:Verifying deployment", "COMPLETE:" ++ url] (List.replicate k 5) := by
  intro k
  induction k with
  | zero =>
    intro fuel i hk h200 _
    obtain ⟨n, rfl⟩ : ∃ n, fuel = n + 1 := ⟨fuel - 1, by omega⟩
    have h0 : resp i = some 200 := by simpa using h200
    simp [verifyAttempts, h0, List.replicate]
  | succ m ih =>
    intro fuel i hk h200 hbefore
    obtain ⟨n, rfl⟩ : ∃ n, fuel = n + 1 := ⟨fuel - 1, by omega⟩
    have h0 : resp i ≠ some 200 := by
      have := hbefore 0 (Nat.succ_pos m)
      simpa using this
    have h200b : resp (i + 1 + m) = some 200 := by
      have heq : i + (m + 1) = i + 1 + m := by omega
      rwa [heq] at h200
    have hbefore2 : ∀ j, j < m → resp (i + 1 + j) ≠ some 200 := by
      intro j hj
      have hh := hbefore (j + 1) (by omega)
      have heq : i + (j + 1) = i + 1 + j := by omega
      rwa [heq] at hh
    simp [verifyAttempts, h0, ih n (i + 1) (by omega) h200b hbefore2, List.replicate_succ]

/-- Claim C5: `verify_deployment` polls at most 36 times at a fixed
5-second interval; the first HTTP 200 stops the loop, logging the
`COMPLETE:` line with the URL; if all 36 attempts fail the loop terminates
and reports the timeout `ERROR:` line. -/
theorem c5_bounded_polling (url : String) (resp : Nat → Option Nat) :
    (verifyDeploymentLoop url resp).attempts ≤ 36 ∧
    (∀ k, k < 36 → resp (1 + k) = some 200 →
      (∀ j, j < k → resp (1 + j) ≠ some 200) →
      verifyDeploymentLoop url resp =
        VerifyOutcome.mk (k + 1) true
          ["DONE:Verifying deployment", "COMPLETE:" ++ url] (List.replicate k 5)) ∧
    ((∀ j, j < 36 → resp (1 + j) ≠ some 200) →
      verifyDeploymentLoop url resp =
        VerifyOutcome.mk 36 false
          ["DONE:Verifying deployment",
           "ERROR:Deployment not verified - check GitHub Actions"]
          (List.replicate 36 5)) := by
  refine ⟨?_, ?_, ?_⟩
  · have hle := verifyAttempts_le url resp 36 1
    by_cases h : (verifyAttempts url resp 1 36).verified
    · simpa [verifyDeploymentLoop, h] using hle
    · simpa [verifyDeploymentLoop, h] using hle
  · intro k hk h200 hbefore
    have hloop := verifyAttempts_first_success url resp k 36 1 hk h200 hbefore
    simp [verifyDeploymentLoop, hloop]
  · intro hfail
    have hloop := verifyAttempts_all_fail url resp 36 1 hfail
    simp [verifyDeploymentLoop, hloop]

/-- Claim C5, witness: success on the third poll, and the full timeout. -/
theorem c5_bounded_polling_witness :
    verifyDeploymentLoop "https://u" (fun i => if i = 3 then some 200 else none) =
      VerifyOutcome.mk 3 true
        ["DONE:Verifying deployment", "COMPLETE:" ++ "https://u"] (List.replicate 2 5) ∧
    verifyDeploymentLoop "https://u" (fun _ => none) =
      VerifyOutcome.mk 36 false
        ["DONE:Verifying deployment",
         "ERROR:Deployment not verified - check GitHub Actions"]
        (List.replicate 36 5) := by
  constructor
  · exact (c5_bounded_polling "https://u" (fun i => if i = 3 then some 200 else none)).2.1
      2 (by decide) (by decide) (by decide)
  · exact (c5_bounded_polling "https://u" (fun _ => none)).2.2 (by decide)
